import Mathlib

/-!
# Verification of the `bot` package of `sajeevka/alfred`

Shallow embedding of `src/bot/bot.go` (the Slack event-handling core):
the subscription cache, the event classification in `HandleMessage`,
the command dispatch, the statistics aggregator and its flush
(`storeStatistics`).  Strings are modelled as Lean `String`
(lists of characters); Go's `strings.ToLower` is modelled as the ASCII
case map, which is exact on the command keywords involved.  The three
digest regexes and the IPv4 regex are embedded as decidable predicates
over character lists giving the exact match semantics of the Go
patterns, `\b` included (a `\b` matches where exactly one neighbour is
a word character `[0-9A-Za-z_]`).
-/

namespace Alfred

/-- ASCII lower-casing of one character; model of what `strings.ToLower`
does on each ASCII letter (the texts involved in commands are ASCII). -/
def lowerChar (c : Char) : Char :=
  if 65 ≤ c.toNat ∧ c.toNat ≤ 90 then Char.ofNat (c.toNat + 32) else c

/-- Model of `strings.ToLower` (ASCII fragment). -/
def strToLower (s : String) : String :=
  ⟨s.data.map lowerChar⟩

/-- True when (in `startsList pat s`) `pat` is an initial segment of `s`;
model of `strings.HasPrefix s pat` at the character-list level. -/
def startsList : List Char → List Char → Bool
  | [], _ => true
  | _ :: _, [] => false
  | p :: ps, c :: cs => p == c && startsList ps cs

/-- True when (in `subList pat s`) `pat` occurs contiguously inside `s`;
model of `strings.Contains s pat`. -/
def subList (pat : List Char) : List Char → Bool
  | [] => startsList pat []
  | c :: rest => startsList pat (c :: rest) || subList pat rest

/-- Model of `strings.HasPrefix`. -/
def strStarts (s pat : String) : Bool := startsList pat.data s.data

/-- Model of `strings.Contains`. -/
def strContains (s pat : String) : Bool := subList pat.data s.data

/-- A regexp word character (`\w`), the class `\b` boundaries are
defined from: `[0-9A-Za-z_]`. -/
def isWordChar (c : Char) : Bool :=
  (48 ≤ c.toNat && c.toNat ≤ 57) ||     -- 0-9
  (65 ≤ c.toNat && c.toNat ≤ 90) ||     -- A-Z
  (97 ≤ c.toNat && c.toNat ≤ 122) ||    -- a-z
  c == '_'

/-- A hexadecimal character, the class `[a-fA-F\d]` of the digest
regexes. -/
def isHexChar (c : Char) : Bool :=
  (48 ≤ c.toNat && c.toNat ≤ 57) ||
  (97 ≤ c.toNat && c.toNat ≤ 102) ||
  (65 ≤ c.toNat && c.toNat ≤ 70)

/-- An ASCII digit, the class `\d`. -/
def isDigitCh (c : Char) : Bool :=
  48 ≤ c.toNat && c.toNat ≤ 57

/-- In `hexRunAt s i n`: the pattern `\b[a-fA-F\d]{n}\b` matches `s` at
position `i`.  Because hex characters are word characters, the leading
`\b` holds exactly when `i` is the start of the string or the previous
character is not a word character, and symmetrically for the trailing
`\b`. -/
def hexRunAt (s : List Char) (i n : Nat) : Bool :=
  decide (i + n ≤ s.length) &&
  (decide (i = 0) || !isWordChar (s.getD (i - 1) ' ')) &&
  (List.range n).all (fun j => isHexChar (s.getD (i + j) ' ')) &&
  (decide (i + n = s.length) || !isWordChar (s.getD (i + n) ' '))

/-- Match semantics of the Go regexes `md5Reg`, `sha1Reg`, `sha256Reg`
(`\b[a-fA-F\d]{n}\b` with n = 32, 40, 64): the pattern matches
somewhere in the string. -/
def digestMatch (n : Nat) (s : List Char) : Bool :=
  (List.range (s.length + 1)).any (fun i => hexRunAt s i n)

/-- Checks `k` consecutive ASCII digits starting at position `i`. -/
def digitsAt (s : List Char) (i k : Nat) : Bool :=
  (List.range k).all (fun j => isDigitCh (s.getD (i + j) ' '))

/-- The pattern `\b\d{k1}\.\d{k2}\.\d{k3}\.\d{k4}\b` matches `s` at
position `i`. -/
def ipAt (s : List Char) (i k1 k2 k3 k4 : Nat) : Bool :=
  let e := i + k1 + 1 + k2 + 1 + k3 + 1 + k4
  decide (e ≤ s.length) &&
  (decide (i = 0) || !isWordChar (s.getD (i - 1) ' ')) &&
  digitsAt s i k1 && s.getD (i + k1) ' ' == '.' &&
  digitsAt s (i + k1 + 1) k2 && s.getD (i + k1 + 1 + k2) ' ' == '.' &&
  digitsAt s (i + k1 + 1 + k2 + 1) k3 && s.getD (i + k1 + 1 + k2 + 1 + k3) ' ' == '.' &&
  digitsAt s (i + k1 + 1 + k2 + 1 + k3 + 1) k4 &&
  (decide (e = s.length) || !isWordChar (s.getD e ' '))

/-- Match semantics of the Go regex
`ipReg = \b\d{1,3}\.\d{1,3}\.\d{1,3}\.\d{1,3}\b`: each group
may take any length between 1 and 3 (the existential over the four
lengths captures the regex engine's backtracking). -/
def ipMatch (s : List Char) : Bool :=
  (List.range (s.length + 1)).any fun i =>
    (List.range 3).any fun a =>
      (List.range 3).any fun b =>
        (List.range 3).any fun c =>
          (List.range 3).any fun d =>
            ipAt s i (a + 1) (b + 1) (c + 1) (d + 1)

/-! ## Data model (`domain` structures, as used by `bot.go`) -/

/-- The tenant record `domain.Team`: the fields read by `bot.go`
(`ID`, `ExternalID`, `BotToken`, `BotUserID`, `VTKey`, `XFEKey`,
`XFEPass`). -/
structure Team where
  id : String
  externalID : String
  botToken : String
  botUserID : String
  vtKey : String
  xfeKey : String
  xfePass : String
deriving DecidableEq

/-- One entry of `domain.Configuration`: a channel or group identifier
with its verbosity flag. -/
structure ChannelConf where
  channel : String
  verbose : Bool
deriving DecidableEq

/-- The cache entry `subscription` of `bot.go`: the team and its
configuration.  The Slack client handle and the websocket timestamp
carry no behaviour relevant here and are omitted. -/
structure Subscription where
  team : Team
  configuration : List ChannelConf
deriving DecidableEq

/-- Structure `domain.Statistics` as used by `bot.go`: the tenant's internal id
(`Team`) and the ordinary-message counter (`Messages`). -/
structure Statistics where
  team : String
  messages : Nat
deriving DecidableEq

/-- Modelled from the spec: `domain.Statistics.Reset` (the `domain`
package is not under `src/`); per the spec a counter is "reset to
zero only after a successful persist". -/
def statsReset (s : Statistics) : Statistics :=
  { s with messages := 0 }

/-- The inner Slack event object, with the fields `bot.go` reads via
`msg.S`: `type`, `subtype`, `user`, `text`, `channel`. -/
structure SlackEvent where
  type : String
  subtype : String
  user : String
  text : String
  channel : String
deriving DecidableEq

/-- An inbound `slack.Response` message: the `team_id` field (`""` when
absent, as `msg.S` returns) and the nested `event` object.  A `nil`
response is modelled by `Option.none` at the call site. -/
structure SlackMessage where
  teamID : String
  event : SlackEvent
deriving DecidableEq

/-- The dispatch context `domain.Context` built in `HandleMessage`. -/
structure WorkContext where
  team : String
  user : String
  type : String
  channel : String
  originalUser : String
deriving DecidableEq

/-- The work item pushed to the queue (`domain.WorkRequest` as
populated by `bot.go`): the credential bundle it is built with, the
payload event, and the `ReplyQueue`/`Context` fields that
`HandleMessage` assigns before pushing. -/
structure WorkRequest where
  botToken : String
  vtKey : String
  xfeKey : String
  xfePass : String
  payload : SlackEvent
  replyQueue : String
  context : Option WorkContext
deriving DecidableEq

/-- Modelled from the spec: `domain.WorkRequestFromMessage` (the
`domain` package is not under `src/`); per the spec the Dispatcher
"build[s] a WorkItem carrying the tenant's enrichment credentials"
and the payload extracted from the raw event.  `ReplyQueue` and
`Context` are assigned afterwards by `HandleMessage` itself. -/
def workRequestFromMessage (ev : SlackEvent)
    (botToken vtKey xfeKey xfePass : String) : WorkRequest :=
  { botToken := botToken, vtKey := vtKey, xfeKey := xfeKey,
    xfePass := xfePass, payload := ev, replyQueue := "", context := none }

/-- The internal command handlers a classified command event can be
dispatched to (lines 151-162 of `bot.go`). -/
inductive Command where
  | joinChannels
  | handleVerbose
  | handleConfig
  | showHelp
  | handleVT
  | handleXFE
deriving DecidableEq

/-! ## Association-list maps

`b.subscriptions` and `b.stats` are Go maps; they are modelled as
association lists where insertion prepends (lookup finds the newest
binding, matching map overwrite semantics). -/

/-- Lookup in an association list (Go map read `m[k]`). -/
def alookup (k : String) : List (String × α) → Option α
  | [] => none
  | (k', v) :: rest => if k' = k then some v else alookup k rest

/-- Insertion into an association list (Go map write `m[k] = v`). -/
def ainsert (k : String) (v : α) (l : List (String × α)) :
    List (String × α) :=
  (k, v) :: l

/-- The message counter currently accumulated for key `k` (0 when no
entry exists). -/
def statsCount (k : String) (stats : List (String × Statistics)) : Nat :=
  match alookup k stats with
  | some s => s.messages
  | none => 0

/-! ## Bot state and the `HandleMessage` pipeline -/

/-- The mutable state of `Bot` that `HandleMessage` touches: the
subscription cache and the statistics map.  (`firstMessages` is never
used by the embedded code paths.) -/
structure BotState where
  subscriptions : List (String × Subscription)
  stats : List (String × Statistics)
deriving DecidableEq

/-- The collaborators `HandleMessage` calls out to: the repository
load of a subscription (`loadSubscription`, `none` = error), whether
`q.PushWork` succeeds, and `util.Hostname`. -/
structure Env where
  loadSub : String → Option Subscription
  pushOK : Bool
  hostname : String

/-- The observable outcome of one `HandleMessage` call: the state
afterwards, the number of warning log lines, the number of repository
subscription loads, the work requests handed to `q.PushWork`, those
the queue accepted, and the command handlers invoked. -/
structure HandleResult where
  state : BotState
  logs : Nat
  repoFetches : Nat
  pushAttempts : List WorkRequest
  pushedOK : List WorkRequest
  commands : List Command
deriving DecidableEq

/-- A result that leaves the given state untouched and produces no
observable effect. -/
def emptyResult (st : BotState) : HandleResult :=
  { state := st, logs := 0, repoFetches := 0, pushAttempts := [],
    pushedOK := [], commands := [] }

/-- Test `channel != "" && channel[0] == 'D'` of `bot.go` (lines 126 and
149): the channel is a direct-message channel. -/
def isDirectChannel (channel : String) : Bool :=
  match channel.data with
  | c :: _ => c == 'D'
  | [] => false

/-- The command-shape test of `bot.go` lines 126-129: the parenthesised
condition whose negation guards trigger detection.  `ltext` is the
lowercased text, compared for the keyword tests; the `"?"` test is
against the original text, exactly as in the source. -/
def isCommandShaped (text channel subtype : String) : Bool :=
  let ltext := strToLower text
  subtype == "" && isDirectChannel channel &&
    (strStarts ltext "join " || strStarts ltext "verbose " ||
     ltext == "config" || text == "?" || strStarts ltext "help" ||
     strStarts ltext "vt " || strStarts ltext "xfe ")

/-- The trigger test of `bot.go` line 131: the lowercased text contains
`<http`, or the original text matches one of `ipReg`, `md5Reg`,
`sha1Reg`, `sha256Reg`. -/
def isTriggerText (text : String) : Bool :=
  strContains (strToLower text) "<http" || ipMatch text.data ||
    digestMatch 32 text.data || digestMatch 40 text.data ||
    digestMatch 64 text.data

/-- The computation of the `push` flag, `bot.go` lines 124-136.  In the
source `push` starts `false` and the two subtype tests run in
sequence inside `if !(command-shaped)`; since a subtype cannot equal
both `""` and `"file_share"`, this chain is equivalent. -/
def decidePush (ev : SlackEvent) : Bool :=
  if !(isCommandShaped ev.text ev.channel ev.subtype) then
    if ev.subtype == "" then isTriggerText ev.text
    else if ev.subtype == "file_share" then true
    else false
  else false

/-- The command dispatch switch of `bot.go` lines 149-164: run only in
the non-push branch, only for direct-message channels, and comparing
every case against the ORIGINAL (not lowercased) text. -/
def dispatchCommand (text channel : String) : List Command :=
  if isDirectChannel channel then
    if strStarts text "join " then [Command.joinChannels]
    else if strStarts text "verbose " then [Command.handleVerbose]
    else if text = "config" then [Command.handleConfig]
    else if text = "?" || strStarts text "help" then [Command.showHelp]
    else if strStarts text "vt " then [Command.handleVT]
    else if strStarts text "xfe " then [Command.handleXFE]
    else []
  else []

/-- The statistics update of `bot.go` lines 165-172: fetch (or create
zeroed, keyed by the external team id, recording the internal id) the
tenant's `Statistics`, then `stats.Messages++`. -/
def bumpStats (internalID extTeam : String)
    (stats : List (String × Statistics)) : List (String × Statistics) :=
  match alookup extTeam stats with
  | some s =>
      stats.map (fun p =>
        if p.1 = extTeam then (extTeam, { s with messages := s.messages + 1 })
        else p)
  | none => ainsert extTeam { team := internalID, messages := 1 } stats

/-- The body of the `case "message"` arm of `HandleMessage`
(`bot.go` lines 115-173), after the subscription has been resolved. -/
def handleEvent (env : Env) (st : BotState) (team : String)
    (sub : Subscription) (ev : SlackEvent) : HandleResult :=
  if ev.type = "message" then
    if ev.user = sub.team.botUserID then emptyResult st
    else if decidePush ev then
      let ctx : WorkContext :=
        { team := team, user := ev.user, type := ev.type,
          channel := ev.channel, originalUser := ev.user }
      let workReq : WorkRequest :=
        { workRequestFromMessage ev sub.team.botToken sub.team.vtKey
            sub.team.xfeKey sub.team.xfePass with
          replyQueue := env.hostname, context := some ctx }
      if env.pushOK then
        { state := st, logs := 0, repoFetches := 0,
          pushAttempts := [workReq], pushedOK := [workReq], commands := [] }
      else
        { state := st, logs := 1, repoFetches := 0,
          pushAttempts := [workReq], pushedOK := [], commands := [] }
    else
      { state := { st with stats := bumpStats sub.team.id team st.stats },
        logs := 0, repoFetches := 0, pushAttempts := [], pushedOK := [],
        commands := dispatchCommand ev.text ev.channel }
  else emptyResult st

/-- Resolution of the subscription for a team (`bot.go` lines
104-111): cache hit via `relevantTeam` (a read-locked map lookup, per
the Subscription Cache contract), else `loadSubscription`, which on
success installs the entry in the cache.  Returns the subscription,
the state after resolution, and the number of repository loads. -/
def resolveSubscription (env : Env) (st : BotState) (team : String) :
    Option (Subscription × BotState × Nat) :=
  match alookup team st.subscriptions with
  | some sub => some (sub, st, 0)
  | none =>
      match env.loadSub team with
      | some sub =>
          some (sub,
            { st with subscriptions := ainsert team sub st.subscriptions }, 1)
      | none => none

/-- Function `HandleMessage` (`bot.go` lines 95-175).  A `nil` message returns
immediately; an empty `team_id` is dropped with one warning; a failed
subscription load is dropped with one warning; otherwise the event is
handled against the resolved subscription. -/
def handleMessage (env : Env) (st : BotState) (msg : Option SlackMessage) :
    HandleResult :=
  match msg with
  | none => emptyResult st
  | some m =>
      if m.teamID = "" then { emptyResult st with logs := 1 }
      else
        match resolveSubscription env st m.teamID with
        | none => { emptyResult st with logs := 1, repoFetches := 1 }
        | some (sub, st2, fetches) =>
            let r := handleEvent env st2 m.teamID sub m.event
            { r with repoFetches := r.repoFetches + fetches }

/-- Function `storeStatistics` (`bot.go` lines 177-189), acting on the
statistics map as a list of entries in iteration order.  `persist`
models `r.UpdateStatistics` (`true` = no error).  For each entry in
order: persist it; on success call `Reset` and continue; on error log
a warning and RETURN, leaving this and all remaining entries
untouched.  Returns (new statistics map, successfully persisted
snapshots, persist attempts). -/
def storeStatsList (persist : Statistics → Bool) :
    List (String × Statistics) →
      List (String × Statistics) × List Statistics × List Statistics
  | [] => ([], [], [])
  | (k, v) :: rest =>
      if persist v then
        let r := storeStatsList persist rest
        ((k, statsReset v) :: r.1, v :: r.2.1, v :: r.2.2)
      else ((k, v) :: rest, [], [v])

/-- The work request that `HandleMessage` hands to `q.PushWork` for a
trigger event: the credentials taken from the subscription, the reply
queue set to the process hostname, and a context naming the original
sender as both actor and originator. -/
def builtWorkRequest (env : Env) (team : String) (sub : Subscription)
    (ev : SlackEvent) : WorkRequest :=
  { botToken := sub.team.botToken, vtKey := sub.team.vtKey,
    xfeKey := sub.team.xfeKey, xfePass := sub.team.xfePass,
    payload := ev, replyQueue := env.hostname,
    context := some { team := team, user := ev.user, type := ev.type,
                      channel := ev.channel, originalUser := ev.user } }

/-! ## Concrete fixtures used by the witnesses and counterexamples -/

/-- A tenant used by the concrete witnesses. -/
def teamW : Team :=
  { id := "tid1", externalID := "T1", botToken := "btok",
    botUserID := "B1", vtKey := "vtk", xfeKey := "xfk", xfePass := "xfp" }

/-- Its cached subscription. -/
def subW : Subscription := { team := teamW, configuration := [] }

/-- A bot state with tenant `T1` cached and no statistics yet. -/
def stW : BotState := { subscriptions := [("T1", subW)], stats := [] }

/-- An environment whose queue accepts pushes. -/
def envW : Env := { loadSub := fun _ => none, pushOK := true, hostname := "host1" }

/-- An environment whose queue rejects pushes. -/
def envWFail : Env :=
  { loadSub := fun _ => none, pushOK := false, hostname := "host1" }

/-- A message for tenant `T1` from user `U1` with the given subtype,
text and channel. -/
def mkMsg (subtype text channel : String) : SlackMessage :=
  { teamID := "T1",
    event := { type := "message", subtype := subtype, user := "U1",
               text := text, channel := channel } }

/-! ## General lemmas about the embedding -/

theorem lowerChar_eq_qmark {c : Char} (h : lowerChar c = '?') : c = '?' := by
  unfold lowerChar at h
  split at h
  · exfalso
    rename_i hc
    have key : ∀ m : Fin 26, Char.ofNat (97 + m.val) ≠ '?' := by decide
    have he : c.toNat + 32 = 97 + (c.toNat - 65) := by omega
    rw [he] at h
    exact key ⟨c.toNat - 65, by omega⟩ h
  · exact h

theorem strToLower_eq_qmark {t : String} (h : strToLower t = "?") :
    t = "?" := by
  unfold strToLower at h
  have hd : t.data.map lowerChar = ['?'] := congrArg String.data h
  cases ht : t.data with
  | nil => rw [ht] at hd; simp at hd
  | cons c cs =>
      rw [ht] at hd
      simp only [List.map_cons, List.cons.injEq] at hd
      obtain ⟨h1, h2⟩ := hd
      have hc : c = '?' := lowerChar_eq_qmark h1
      have hcs : cs = [] := by simpa using congrArg List.length h2
      cases t with
      | mk d =>
          simp only at ht
          rw [ht, hc, hcs]

theorem decidePush_false_of_commandShaped {ev : SlackEvent}
    (h : isCommandShaped ev.text ev.channel ev.subtype = true) :
    decidePush ev = false := by
  unfold decidePush
  rw [h]
  rfl

theorem handleEvent_push (env : Env) (st : BotState) (team : String)
    (sub : Subscription) (ev : SlackEvent)
    (htype : ev.type = "message") (huser : ev.user ≠ sub.team.botUserID)
    (hpush : decidePush ev = true) :
    handleEvent env st team sub ev =
      { state := st, logs := if env.pushOK then 0 else 1, repoFetches := 0,
        pushAttempts := [builtWorkRequest env team sub ev],
        pushedOK := if env.pushOK then [builtWorkRequest env team sub ev] else [],
        commands := [] } := by
  unfold handleEvent
  rw [if_pos htype, if_neg huser, if_pos (by simp [hpush])]
  by_cases hq : env.pushOK <;>
    simp [hq, builtWorkRequest, workRequestFromMessage]

theorem handleEvent_nonpush (env : Env) (st : BotState) (team : String)
    (sub : Subscription) (ev : SlackEvent)
    (htype : ev.type = "message") (huser : ev.user ≠ sub.team.botUserID)
    (hpush : decidePush ev = false) :
    handleEvent env st team sub ev =
      { state := { st with stats := bumpStats sub.team.id team st.stats },
        logs := 0, repoFetches := 0, pushAttempts := [], pushedOK := [],
        commands := dispatchCommand ev.text ev.channel } := by
  unfold handleEvent
  rw [if_pos htype, if_neg huser, if_neg (by simp [hpush])]

theorem handleMessage_resolved (env : Env) (st : BotState)
    (m : SlackMessage) (sub : Subscription) (st2 : BotState) (k : Nat)
    (hne : m.teamID ≠ "")
    (hres : resolveSubscription env st m.teamID = some (sub, st2, k)) :
    handleMessage env st (some m) =
      { handleEvent env st2 m.teamID sub m.event with
        repoFetches :=
          (handleEvent env st2 m.teamID sub m.event).repoFetches + k } := by
  simp only [handleMessage]
  rw [if_neg hne, hres]

theorem resolveSubscription_stats (env : Env) (st : BotState)
    (team : String) (sub : Subscription) (st2 : BotState) (k : Nat)
    (h : resolveSubscription env st team = some (sub, st2, k)) :
    st2.stats = st.stats := by
  unfold resolveSubscription at h
  rcases hl : alookup team st.subscriptions with _ | s <;> rw [hl] at h
  · rcases he : env.loadSub team with _ | s2 <;> rw [he] at h
    · simp at h
    · simp only [Option.some.injEq, Prod.mk.injEq] at h
      rw [← h.2.1]
  · simp only [Option.some.injEq, Prod.mk.injEq] at h
    rw [← h.2.1]

theorem handleMessage_no_push (env : Env) (st : BotState)
    (m : SlackMessage) (h : decidePush m.event = false) :
    (handleMessage env st (some m)).pushAttempts = [] ∧
    (handleMessage env st (some m)).pushedOK = [] := by
  simp only [handleMessage]
  by_cases ht : m.teamID = ""
  · rw [if_pos ht]
    exact ⟨rfl, rfl⟩
  · rw [if_neg ht]
    rcases hr : resolveSubscription env st m.teamID with _ | ⟨sub, st2, k⟩
    · exact ⟨rfl, rfl⟩
    · dsimp only
      by_cases h1 : m.event.type = "message"
      · by_cases h2 : m.event.user = sub.team.botUserID
        · unfold handleEvent
          rw [if_pos h1, if_pos h2]
          exact ⟨rfl, rfl⟩
        · rw [handleEvent_nonpush env st2 m.teamID sub m.event h1 h2 h]
          exact ⟨rfl, rfl⟩
      · unfold handleEvent
        rw [if_neg h1]
        exact ⟨rfl, rfl⟩

theorem alookup_map_update {t : String} {v : Statistics}
    (stats : List (String × Statistics)) {s : Statistics}
    (h : alookup t stats = some s) :
    alookup t (stats.map (fun p => if p.1 = t then (t, v) else p)) =
      some v := by
  induction stats with
  | nil => simp [alookup] at h
  | cons hd tl ih =>
      obtain ⟨k', w⟩ := hd
      simp only [List.map_cons]
      by_cases hk : k' = t
      · dsimp only
        rw [if_pos hk]
        simp [alookup]
      · dsimp only
        rw [if_neg hk]
        simp only [alookup, if_neg hk] at h ⊢
        exact ih h

theorem alookup_map_update_other {t t' : String} (ht : t' ≠ t)
    {v : Statistics} (stats : List (String × Statistics)) :
    alookup t' (stats.map (fun p => if p.1 = t then (t, v) else p)) =
      alookup t' stats := by
  induction stats with
  | nil => rfl
  | cons hd tl ih =>
      obtain ⟨k', w⟩ := hd
      simp only [List.map_cons]
      by_cases hk : k' = t
      · subst hk
        dsimp only
        rw [if_pos rfl]
        simp only [alookup]
        rw [if_neg (Ne.symm ht), if_neg (Ne.symm ht)]
        exact ih
      · dsimp only
        rw [if_neg hk]
        simp only [alookup]
        by_cases hk2 : k' = t'
        · rw [if_pos hk2, if_pos hk2]
        · rw [if_neg hk2, if_neg hk2]
          exact ih

theorem statsCount_bump_self (internalID t : String)
    (stats : List (String × Statistics)) :
    statsCount t (bumpStats internalID t stats) = statsCount t stats + 1 := by
  unfold bumpStats
  rcases h : alookup t stats with _ | s
  · unfold statsCount
    rw [h]
    simp [ainsert, alookup]
  · unfold statsCount
    rw [h, alookup_map_update stats h]

theorem alookup_bump_other (internalID t t' : String) (ht : t' ≠ t)
    (stats : List (String × Statistics)) :
    alookup t' (bumpStats internalID t stats) = alookup t' stats := by
  unfold bumpStats
  rcases h : alookup t stats with _ | s
  · simp [ainsert, alookup, Ne.symm ht]
  · exact alookup_map_update_other ht stats

/-! ## Claim theorems -/

/-- C10: calling `HandleMessage` with a nil message returns
immediately: no logging, no cache access, no repository call, no queue
push and no statistics mutation — the public entry point is total even
on a nil input. -/
theorem claim_C10 (env : Env) (st : BotState) :
    handleMessage env st none =
      { state := st, logs := 0, repoFetches := 0, pushAttempts := [],
        pushedOK := [], commands := [] } := rfl

/-- C6: an event whose team identifier field is absent or empty is
dropped with only a log line: no subscription-cache mutation, no
repository fetch, no queue push, no statistics mutation. -/
theorem claim_C6 (env : Env) (st : BotState) (m : SlackMessage)
    (h : m.teamID = "") :
    handleMessage env st (some m) =
      { state := st, logs := 1, repoFetches := 0, pushAttempts := [],
        pushedOK := [], commands := [] } := by
  simp only [handleMessage]
  rw [if_pos h]
  rfl

/-- Witness for C6: a concrete message with an empty `team_id`. -/
theorem claim_C6_witness :
    handleMessage envW stW
        (some { teamID := "",
                event := { type := "message", subtype := "", user := "U1",
                           text := "hello", channel := "C1" } }) =
      { state := stW, logs := 1, repoFetches := 0, pushAttempts := [],
        pushedOK := [], commands := [] } :=
  claim_C6 envW stW _ rfl

/-- C5: for a message-type event whose sender equals the cached
tenant's bot user id, `HandleMessage` is a complete no-op after the
subscription lookup: no work item, no command handler, no statistics
change, no log line. -/
theorem claim_C5 (env : Env) (st : BotState) (m : SlackMessage)
    (sub : Subscription) (st2 : BotState) (k : Nat)
    (hne : m.teamID ≠ "")
    (hres : resolveSubscription env st m.teamID = some (sub, st2, k))
    (htype : m.event.type = "message")
    (huser : m.event.user = sub.team.botUserID) :
    (handleMessage env st (some m)).state.stats = st.stats ∧
    (handleMessage env st (some m)).pushAttempts = [] ∧
    (handleMessage env st (some m)).pushedOK = [] ∧
    (handleMessage env st (some m)).commands = [] ∧
    (handleMessage env st (some m)).logs = 0 := by
  rw [handleMessage_resolved env st m sub st2 k hne hres]
  unfold handleEvent
  rw [if_pos htype, if_pos huser]
  exact ⟨resolveSubscription_stats env st m.teamID sub st2 k hres,
    rfl, rfl, rfl, rfl⟩

/-- Witness for C5: a concrete message sent by the tenant's own bot
user (`B1`), with a text that would otherwise be a trigger. -/
theorem claim_C5_witness :
    (handleMessage envW stW
        (some { teamID := "T1",
                event := { type := "message", subtype := "", user := "B1",
                           text := "10.0.0.1", channel := "C1" } })).state.stats
        = stW.stats ∧
    (handleMessage envW stW
        (some { teamID := "T1",
                event := { type := "message", subtype := "", user := "B1",
                           text := "10.0.0.1", channel := "C1" } })).pushAttempts
        = [] ∧
    (handleMessage envW stW
        (some { teamID := "T1",
                event := { type := "message", subtype := "", user := "B1",
                           text := "10.0.0.1", channel := "C1" } })).pushedOK
        = [] ∧
    (handleMessage envW stW
        (some { teamID := "T1",
                event := { type := "message", subtype := "", user := "B1",
                           text := "10.0.0.1", channel := "C1" } })).commands
        = [] ∧
    (handleMessage envW stW
        (some { teamID := "T1",
                event := { type := "message", subtype := "", user := "B1",
                           text := "10.0.0.1", channel := "C1" } })).logs
        = 0 :=
  claim_C5 envW stW _ subW stW 0 (by decide) rfl rfl rfl

/-- C1: a message-type event with empty subtype, a direct-message
channel (first character `D`), and a command-shaped text (lowercased
text starting with "join ", "verbose ", "vt ", "xfe " or "help", or
equal to "config" or "?") is classified internal-command and never
trigger: no work item is pushed, even if the text also contains a
hash, an IP pattern or a hyperlink marker. -/
theorem claim_C1 (env : Env) (st : BotState) (m : SlackMessage)
    (htype : m.event.type = "message")
    (hsub : m.event.subtype = "")
    (hdm : isDirectChannel m.event.channel = true)
    (hcmd : strStarts (strToLower m.event.text) "join " = true ∨
            strStarts (strToLower m.event.text) "verbose " = true ∨
            strToLower m.event.text = "config" ∨
            strToLower m.event.text = "?" ∨
            strStarts (strToLower m.event.text) "help" = true ∨
            strStarts (strToLower m.event.text) "vt " = true ∨
            strStarts (strToLower m.event.text) "xfe " = true) :
    (handleMessage env st (some m)).pushAttempts = [] ∧
    (handleMessage env st (some m)).pushedOK = [] := by
  apply handleMessage_no_push
  apply decidePush_false_of_commandShaped
  unfold isCommandShaped
  rw [hsub, hdm]
  rcases hcmd with h | h | h | h | h | h | h
  · simp [h]
  · simp [h]
  · simp [h]
  · simp [strToLower_eq_qmark h]
  · simp [h]
  · simp [h]
  · simp [h]

/-- Witness for C1: the spec's own example — a direct message
`"verbose #alerts ..."` that also contains a 32-character hex digest
still pushes nothing. -/
theorem claim_C1_witness :
    (handleMessage envW stW
        (some (mkMsg ""
          "verbose #alerts 0123456789abcdef0123456789abcdef"
          "D123"))).pushAttempts = [] ∧
    (handleMessage envW stW
        (some (mkMsg ""
          "verbose #alerts 0123456789abcdef0123456789abcdef"
          "D123"))).pushedOK = [] :=
  claim_C1 envW stW _ rfl rfl rfl (Or.inr (Or.inl (by decide)))

/-- C7: for every event classified trigger, exactly one work item is
built and pushed; it carries the tenant's enrichment credentials, a
reply-destination equal to this process's host identity, and a context
whose actor and originator both equal the event's original sender.  A
failed push is logged and the event dropped: still exactly one
attempt, nothing enqueued, one warning, no retry. -/
theorem claim_C7 (env : Env) (st : BotState) (m : SlackMessage)
    (sub : Subscription) (st2 : BotState) (k : Nat)
    (hne : m.teamID ≠ "")
    (hres : resolveSubscription env st m.teamID = some (sub, st2, k))
    (htype : m.event.type = "message")
    (huser : m.event.user ≠ sub.team.botUserID)
    (hpush : decidePush m.event = true) :
    (handleMessage env st (some m)).pushAttempts =
      [{ botToken := sub.team.botToken, vtKey := sub.team.vtKey,
         xfeKey := sub.team.xfeKey, xfePass := sub.team.xfePass,
         payload := m.event, replyQueue := env.hostname,
         context := some { team := m.teamID, user := m.event.user,
                           type := m.event.type, channel := m.event.channel,
                           originalUser := m.event.user } }] ∧
    (env.pushOK = true →
      (handleMessage env st (some m)).pushedOK =
        (handleMessage env st (some m)).pushAttempts) ∧
    (env.pushOK = false →
      (handleMessage env st (some m)).pushedOK = [] ∧
      (handleMessage env st (some m)).logs = 1) := by
  rw [handleMessage_resolved env st m sub st2 k hne hres,
      handleEvent_push env st2 m.teamID sub m.event htype huser hpush]
  refine ⟨rfl, ?_, ?_⟩
  · intro hq
    simp [hq, builtWorkRequest]
  · intro hq
    simp [hq]

/-- Witness for C7: a 40-hex-digest message against a rejecting queue —
one attempt carrying the tenant credentials and hostname, nothing
enqueued, one warning. -/
theorem claim_C7_witness :
    (handleMessage envWFail stW
        (some (mkMsg "" "0123456789abcdef0123456789abcdef01234567"
          "C1"))).pushAttempts =
      [{ botToken := "btok", vtKey := "vtk", xfeKey := "xfk",
         xfePass := "xfp",
         payload := { type := "message", subtype := "", user := "U1",
                      text := "0123456789abcdef0123456789abcdef01234567",
                      channel := "C1" },
         replyQueue := "host1",
         context := some { team := "T1", user := "U1", type := "message",
                           channel := "C1", originalUser := "U1" } }] ∧
    (handleMessage envWFail stW
        (some (mkMsg "" "0123456789abcdef0123456789abcdef01234567"
          "C1"))).pushedOK = [] ∧
    (handleMessage envWFail stW
        (some (mkMsg "" "0123456789abcdef0123456789abcdef01234567"
          "C1"))).logs = 1 := by
  have h := claim_C7 envWFail stW
    (mkMsg "" "0123456789abcdef0123456789abcdef01234567" "C1")
    subW stW 0 (by decide) rfl rfl (by decide) (by decide)
  exact ⟨h.1, (h.2.2 rfl).1, (h.2.2 rfl).2⟩

/-- C2 as amended: the tenant's statistics counter is incremented by
exactly 1 (and no other tenant's counter is touched) whenever a
message-type event from another user is NOT classified trigger — this
includes both ordinary events and internal-command events, since the
statistics increment of `bot.go` lines 165-172 sits in the same branch
as the command dispatch; a trigger event changes no counter. -/
theorem claim_C2_amended (env : Env) (st : BotState) (m : SlackMessage)
    (sub : Subscription) (st2 : BotState) (k : Nat) (t' : String)
    (hne : m.teamID ≠ "")
    (hres : resolveSubscription env st m.teamID = some (sub, st2, k))
    (htype : m.event.type = "message")
    (huser : m.event.user ≠ sub.team.botUserID)
    (ht' : t' ≠ m.teamID) :
    (decidePush m.event = false →
        statsCount m.teamID (handleMessage env st (some m)).state.stats =
          statsCount m.teamID st.stats + 1 ∧
        alookup t' (handleMessage env st (some m)).state.stats =
          alookup t' st.stats) ∧
    (decidePush m.event = true →
        (handleMessage env st (some m)).state.stats = st.stats) := by
  have hst : st2.stats = st.stats :=
    resolveSubscription_stats env st m.teamID sub st2 k hres
  rw [handleMessage_resolved env st m sub st2 k hne hres]
  constructor
  · intro hp
    rw [handleEvent_nonpush env st2 m.teamID sub m.event htype huser hp]
    constructor
    · show statsCount m.teamID (bumpStats sub.team.id m.teamID st2.stats) = _
      rw [statsCount_bump_self, hst]
    · show alookup t' (bumpStats sub.team.id m.teamID st2.stats) = _
      rw [alookup_bump_other _ _ _ ht', hst]
  · intro hp
    rw [handleEvent_push env st2 m.teamID sub m.event htype huser hp]
    exact hst

/-- Witness for C2 (amended), at a concrete ordinary event: the
counter of `T1` goes from 0 to 1 and the (absent) counter of `T2`
stays absent. -/
theorem claim_C2_amended_witness :
    statsCount "T1"
        (handleMessage envW stW
          (some (mkMsg "" "good morning" "C1"))).state.stats =
      statsCount "T1" stW.stats + 1 ∧
    alookup "T2"
        (handleMessage envW stW
          (some (mkMsg "" "good morning" "C1"))).state.stats =
      alookup "T2" stW.stats :=
  (claim_C2_amended envW stW (mkMsg "" "good morning" "C1")
      subW stW 0 "T2" (by decide) rfl rfl (by decide) (by decide)).1
    (by decide)

/-- Counterexample to C2 as stated: the direct-message command
`"join #general"` is consumed by the join command handler AND still
increments tenant `T1`'s statistics counter, so internal-command
events are not excluded from statistics. -/
theorem claim_C2_cex :
    (handleMessage envW stW
        (some (mkMsg "" "join #general" "D123"))).commands =
      [Command.joinChannels] ∧
    statsCount "T1"
        (handleMessage envW stW
          (some (mkMsg "" "join #general" "D123"))).state.stats = 1 := by
  decide

/-- C9: an upper-case command in a direct message (lowercased text is
command-shaped, but the original text matches none of the dispatch
cases, which compare against the original text) pushes no work item,
runs no command handler, and still increments the tenant's statistics
counter by 1. -/
theorem claim_C9 (env : Env) (st : BotState) (m : SlackMessage)
    (sub : Subscription) (st2 : BotState) (k : Nat)
    (hne : m.teamID ≠ "")
    (hres : resolveSubscription env st m.teamID = some (sub, st2, k))
    (htype : m.event.type = "message")
    (huser : m.event.user ≠ sub.team.botUserID)
    (hshape : isCommandShaped m.event.text m.event.channel m.event.subtype
      = true)
    (h1 : strStarts m.event.text "join " = false)
    (h2 : strStarts m.event.text "verbose " = false)
    (h3 : m.event.text ≠ "config")
    (h4 : m.event.text ≠ "?")
    (h5 : strStarts m.event.text "help" = false)
    (h6 : strStarts m.event.text "vt " = false)
    (h7 : strStarts m.event.text "xfe " = false) :
    (handleMessage env st (some m)).pushAttempts = [] ∧
    (handleMessage env st (some m)).commands = [] ∧
    statsCount m.teamID (handleMessage env st (some m)).state.stats =
      statsCount m.teamID st.stats + 1 := by
  have hp : decidePush m.event = false :=
    decidePush_false_of_commandShaped hshape
  have hst : st2.stats = st.stats :=
    resolveSubscription_stats env st m.teamID sub st2 k hres
  rw [handleMessage_resolved env st m sub st2 k hne hres,
      handleEvent_nonpush env st2 m.teamID sub m.event htype huser hp]
  refine ⟨rfl, ?_, ?_⟩
  · show dispatchCommand m.event.text m.event.channel = []
    simp [dispatchCommand, h1, h2, h3, h4, h5, h6, h7]
  · show statsCount m.teamID (bumpStats sub.team.id m.teamID st2.stats) = _
    rw [statsCount_bump_self, hst]

/-- Witness for C9 at the concrete input `"JOIN #general"`: no push,
no handler, counter incremented. -/
theorem claim_C9_witness :
    (handleMessage envW stW
        (some (mkMsg "" "JOIN #general" "D123"))).pushAttempts = [] ∧
    (handleMessage envW stW
        (some (mkMsg "" "JOIN #general" "D123"))).commands = [] ∧
    statsCount "T1"
        (handleMessage envW stW
          (some (mkMsg "" "JOIN #general" "D123"))).state.stats =
      statsCount "T1" stW.stats + 1 :=
  claim_C9 envW stW (mkMsg "" "JOIN #general" "D123") subW stW 0
    (by decide) rfl rfl (by decide) (by decide) (by decide) (by decide)
    (by decide) (by decide) (by decide) (by decide) (by decide)

/-- C3 as amended: `storeStatistics` walks the counters in iteration
order, persisting and resetting each one until the first persist
failure; at the first failure it logs and returns, so the failed
counter and every not-yet-visited counter keep their accumulated
counts and are not even attempted.  Counters persisted before the
failure are reset exactly once — nothing lost, nothing
double-counted. -/
theorem claim_C3_amended (persist : Statistics → Bool)
    (l : List (String × Statistics)) :
    storeStatsList persist l =
      ((l.takeWhile (fun p => persist p.2)).map
          (fun p => (p.1, statsReset p.2)) ++
        l.dropWhile (fun p => persist p.2),
       (l.takeWhile (fun p => persist p.2)).map (fun p => p.2),
       (l.takeWhile (fun p => persist p.2)).map (fun p => p.2) ++
        ((l.dropWhile (fun p => persist p.2)).take 1).map
          (fun p => p.2)) := by
  induction l with
  | nil => rfl
  | cons hd tl ih =>
      obtain ⟨kk, v⟩ := hd
      by_cases hp : persist v
      · simp [storeStatsList, hp, List.takeWhile_cons,
          List.dropWhile_cons, ih]
      · simp [storeStatsList, hp, List.takeWhile_cons,
          List.dropWhile_cons]

/-- Counterexample to C3 as stated: with two counters, where persisting
the first fails while persisting the second would succeed, the flush
returns early — the second counter is never attempted (the attempt
list holds only the first snapshot) and is not reset, although the
claim requires every counter to be attempted and, its persist
succeeding, reset to 0. -/
theorem claim_C3_cex :
    (fun s => s.team == "B") (Statistics.mk "B" 5) = true ∧
    storeStatsList (fun s => s.team == "B")
        [("tA", Statistics.mk "A" 3), ("tB", Statistics.mk "B" 5)] =
      ([("tA", Statistics.mk "A" 3), ("tB", Statistics.mk "B" 5)],
       [], [Statistics.mk "A" 3]) := by
  decide

/-- Any position carrying an exactly-`n` hex run with non-word (or
string-edge) neighbours yields a match of `\b[a-fA-F\d]{n}\b`. -/
theorem digestMatch_of_run (s : List Char) (i n : Nat)
    (hlen : i + n ≤ s.length)
    (hlb : i = 0 ∨ isWordChar (s.getD (i - 1) ' ') = false)
    (hhex : (List.range n).all (fun j => isHexChar (s.getD (i + j) ' '))
      = true)
    (hrb : i + n = s.length ∨ isWordChar (s.getD (i + n) ' ') = false) :
    digestMatch n s = true := by
  unfold digestMatch
  rw [List.any_eq_true]
  refine ⟨i, List.mem_range.mpr (by omega), ?_⟩
  unfold hexRunAt
  simp only [Bool.and_eq_true, Bool.or_eq_true, decide_eq_true_eq,
    Bool.not_eq_true']
  exact ⟨⟨⟨hlen, hlb⟩, hhex⟩, hrb⟩

/-- C4 as amended: a run of exactly 32, 40 or 64 hex characters whose
adjacent characters on both sides are not WORD characters
(`[0-9A-Za-z_]` — the `\b` semantics; non-hex alone is not enough) or
which sits at the start/end of the text makes the corresponding digest
pattern match, and a message-type, empty-subtype, not command-shaped
event from another user carrying such a text is classified trigger:
exactly one work item attempt. -/
theorem claim_C4_amended (env : Env) (st : BotState) (m : SlackMessage)
    (sub : Subscription) (st2 : BotState) (k : Nat) (i n : Nat)
    (hne : m.teamID ≠ "")
    (hres : resolveSubscription env st m.teamID = some (sub, st2, k))
    (htype : m.event.type = "message")
    (hsub : m.event.subtype = "")
    (huser : m.event.user ≠ sub.team.botUserID)
    (hncmd : isCommandShaped m.event.text m.event.channel m.event.subtype
      = false)
    (hn : n = 32 ∨ n = 40 ∨ n = 64)
    (hlen : i + n ≤ m.event.text.data.length)
    (hlb : i = 0 ∨
      isWordChar (m.event.text.data.getD (i - 1) ' ') = false)
    (hhex : (List.range n).all
      (fun j => isHexChar (m.event.text.data.getD (i + j) ' ')) = true)
    (hrb : i + n = m.event.text.data.length ∨
      isWordChar (m.event.text.data.getD (i + n) ' ') = false) :
    digestMatch n m.event.text.data = true ∧
    (handleMessage env st (some m)).pushAttempts.length = 1 := by
  have hd : digestMatch n m.event.text.data = true :=
    digestMatch_of_run _ i n hlen hlb hhex hrb
  have htr : isTriggerText m.event.text = true := by
    unfold isTriggerText
    rcases hn with h | h | h <;> subst h <;> simp [hd]
  have hp : decidePush m.event = true := by
    unfold decidePush
    rw [hncmd]
    simp [hsub, htr]
  refine ⟨hd, ?_⟩
  rw [handleMessage_resolved env st m sub st2 k hne hres,
      handleEvent_push env st2 m.teamID sub m.event htype huser hp]
  rfl

/-- Witness for C4 (amended): a bare 40-hex SHA-1 string in a
non-direct channel matches and produces exactly one work item
attempt. -/
theorem claim_C4_amended_witness :
    digestMatch 40
        "0123456789abcdef0123456789abcdef01234567".data = true ∧
    (handleMessage envW stW
        (some (mkMsg "" "0123456789abcdef0123456789abcdef01234567"
          "C1"))).pushAttempts.length = 1 :=
  claim_C4_amended envW stW
    (mkMsg "" "0123456789abcdef0123456789abcdef01234567" "C1")
    subW stW 0 0 40 (by decide) rfl rfl rfl (by decide) (by decide)
    (Or.inr (Or.inl rfl)) (by decide) (Or.inl rfl) (by decide)
    (Or.inl (by decide))

/-- Counterexample to C4 as stated: in
`"z00112233445566778899aabbccddeeffz"` the 32-hex run at positions
1..32 is bounded on both sides by `z`, which is NOT a hex digit — so
the claim's hypothesis holds — yet `z` is a word character, `\b` does
not match, `md5Reg` does not match, and the event (non-command,
subtype `""`) is not classified trigger: nothing is pushed. -/
theorem claim_C4_cex :
    isHexChar ("z00112233445566778899aabbccddeeffz".data.getD 0 ' ')
      = false ∧
    (List.range 32).all
        (fun j =>
          isHexChar ("z00112233445566778899aabbccddeeffz".data.getD
            (1 + j) ' ')) = true ∧
    isHexChar ("z00112233445566778899aabbccddeeffz".data.getD 33 ' ')
      = false ∧
    digestMatch 32 "z00112233445566778899aabbccddeeffz".data = false ∧
    (handleMessage envW stW
        (some (mkMsg "" "z00112233445566778899aabbccddeeffz"
          "C1"))).pushAttempts = [] := by
  decide

/-- Four word-boundary-delimited, dot-separated digit groups of
lengths 1..3 yield a match of `ipReg`. -/
theorem ipMatch_of_groups (s : List Char) (i k1 k2 k3 k4 : Nat)
    (hk1 : 1 ≤ k1 ∧ k1 ≤ 3) (hk2 : 1 ≤ k2 ∧ k2 ≤ 3)
    (hk3 : 1 ≤ k3 ∧ k3 ≤ 3) (hk4 : 1 ≤ k4 ∧ k4 ≤ 3)
    (hip : ipAt s i k1 k2 k3 k4 = true) :
    ipMatch s = true := by
  have hlt : i < s.length + 1 := by
    unfold ipAt at hip
    simp only [Bool.and_eq_true, decide_eq_true_eq] at hip
    have := hip.1.1.1.1.1.1.1.1.1
    omega
  unfold ipMatch
  rw [List.any_eq_true]
  refine ⟨i, List.mem_range.mpr hlt, ?_⟩
  rw [List.any_eq_true]
  refine ⟨k1 - 1, List.mem_range.mpr (by omega), ?_⟩
  rw [List.any_eq_true]
  refine ⟨k2 - 1, List.mem_range.mpr (by omega), ?_⟩
  rw [List.any_eq_true]
  refine ⟨k3 - 1, List.mem_range.mpr (by omega), ?_⟩
  rw [List.any_eq_true]
  refine ⟨k4 - 1, List.mem_range.mpr (by omega), ?_⟩
  have e1 : k1 - 1 + 1 = k1 := by omega
  have e2 : k2 - 1 + 1 = k2 := by omega
  have e3 : k3 - 1 + 1 = k3 := by omega
  have e4 : k4 - 1 + 1 = k4 := by omega
  rw [e1, e2, e3, e4]
  exact hip

/-- C8 as amended: the IPv4 pattern matches any text containing four
dot-separated groups of 1 to 3 digits each whose outer neighbours are
not word characters (or are the text's edges) — there is no range
validation on the group values, and in particular `999.999.999.999`
matches and classifies a non-command, empty-subtype message as
trigger (see the witness); but the `\b` boundaries are required, so
not EVERY text containing four dot-separated groups matches (see the
counterexample). -/
theorem claim_C8_amended (env : Env) (st : BotState) (m : SlackMessage)
    (sub : Subscription) (st2 : BotState) (k : Nat)
    (i k1 k2 k3 k4 : Nat)
    (hne : m.teamID ≠ "")
    (hres : resolveSubscription env st m.teamID = some (sub, st2, k))
    (htype : m.event.type = "message")
    (hsub : m.event.subtype = "")
    (huser : m.event.user ≠ sub.team.botUserID)
    (hncmd : isCommandShaped m.event.text m.event.channel m.event.subtype
      = false)
    (hk1 : 1 ≤ k1 ∧ k1 ≤ 3) (hk2 : 1 ≤ k2 ∧ k2 ≤ 3)
    (hk3 : 1 ≤ k3 ∧ k3 ≤ 3) (hk4 : 1 ≤ k4 ∧ k4 ≤ 3)
    (hip : ipAt m.event.text.data i k1 k2 k3 k4 = true) :
    ipMatch m.event.text.data = true ∧
    (handleMessage env st (some m)).pushAttempts.length = 1 := by
  have hm : ipMatch m.event.text.data = true :=
    ipMatch_of_groups _ i k1 k2 k3 k4 hk1 hk2 hk3 hk4 hip
  have htr : isTriggerText m.event.text = true := by
    unfold isTriggerText
    simp [hm]
  have hp : decidePush m.event = true := by
    unfold decidePush
    rw [hncmd]
    simp [hsub, htr]
  refine ⟨hm, ?_⟩
  rw [handleMessage_resolved env st m sub st2 k hne hres,
      handleEvent_push env st2 m.teamID sub m.event htype huser hp]
  rfl

/-- Witness for C8 (amended): `999.999.999.999` — all groups out of
IPv4 range — matches and yields exactly one work item attempt. -/
theorem claim_C8_amended_witness :
    ipMatch "999.999.999.999".data = true ∧
    (handleMessage envW stW
        (some (mkMsg "" "999.999.999.999" "C1"))).pushAttempts.length
      = 1 :=
  claim_C8_amended envW stW (mkMsg "" "999.999.999.999" "C1")
    subW stW 0 0 3 3 3 3 (by decide) rfl rfl rfl (by decide) (by decide)
    (by decide) (by decide) (by decide) (by decide) (by decide)

/-- Counterexample to C8 as stated: `"a1.1.1.1"` contains four
dot-separated groups of 1 digit each (at positions 1,3,5,7), yet
`ipReg` does not match — the leading `a` is a word character, so the
`\b` fails — and the event is not classified trigger: nothing is
pushed. -/
theorem claim_C8_cex :
    digitsAt "a1.1.1.1".data 1 1 = true ∧
    "a1.1.1.1".data.getD 2 ' ' = '.' ∧
    digitsAt "a1.1.1.1".data 3 1 = true ∧
    "a1.1.1.1".data.getD 4 ' ' = '.' ∧
    digitsAt "a1.1.1.1".data 5 1 = true ∧
    "a1.1.1.1".data.getD 6 ' ' = '.' ∧
    digitsAt "a1.1.1.1".data 7 1 = true ∧
    ipMatch "a1.1.1.1".data = false ∧
    (handleMessage envW stW
        (some (mkMsg "" "a1.1.1.1" "C1"))).pushAttempts = [] := by
  decide

end Alfred
